import Mathlib

/-!
Verification of the agent-builder core (`agent_builder/agent_builder.py`).

A shallow embedding of the pure core of the agent-builder wizard:

* `AgentBuilderMode` — the three complexity tiers (`AgentBuilderMode` enum).
* `Components` — the component store.  In the source this is a `dict`
  initialised by `_initialize_components` with 3 / 6 / 11 keys depending on
  the mode; every value starts as `None` or `[]` and is read back with
  `.get`, so a missing key behaves exactly like an empty value.  We model it
  as a record with all 11 fields, where the empty string / empty list stands
  for `None` / `""` / `[]` (all falsy in Python).  The tier only matters for
  the field count used by validation, which we keep explicit.
* `validate_prompt` — the validator (`AgentBuilder.validate_prompt`).
* `prompt_parts` / `generate_prompt` — the renderer
  (`AgentBuilder.generate_prompt`), with `"\n".join` embedded as `joinParts`.
* `AgentBuilderMetrics` with `time_to_create`, `success_rate` and the
  end-of-`build` finalisation (`self.metrics.end_time = time.time()`).
* a raw `dict` model (`dict_set`, `initial_components`) for claims about the
  store's reaction to unknown field names.

Python float arithmetic on these small scores is exact at every value the
program produces, so scores and timestamps are modelled as rationals.
-/

namespace AgentBuilderSpec

/-- The three complexity modes (`AgentBuilderMode` in the source).
BASIC is the Minimal tier, AI_ASSISTED the Guided tier, EXPERT the Full
tier of the specification. -/
inductive AgentBuilderMode
  | BASIC
  | AI_ASSISTED
  | EXPERT
deriving DecidableEq

/-- The component store.  `_initialize_components` creates a dict whose
scalar fields start as `None` and whose list fields start as `[]`; the code
only ever reads them through `.get` / truthiness tests, so `""` faithfully
stands for both `None` and the empty string. -/
structure Components where
  role : String
  task : String
  constraints : List String
  context : String
  examples : List (String × String)
  output_format : String
  reasoning_pattern : String
  success_criteria : List String
  edge_cases : List String
  performance_requirements : String
  custom_instructions : List String
deriving DecidableEq

/-- The store every mode starts from: all fields empty. -/
def emptyComponents : Components :=
  { role := ""
    task := ""
    constraints := []
    context := ""
    examples := []
    output_format := ""
    reasoning_pattern := ""
    success_criteria := []
    edge_cases := []
    performance_requirements := ""
    custom_instructions := [] }

/-- The value `len(self.components)`: the number of keys of the mode's dict
(3, 6 or 11, also stored in `metrics.total_components`). -/
def numComponents : AgentBuilderMode → Nat
  | .BASIC => 3
  | .AI_ASSISTED => 6
  | .EXPERT => 11

/-- Truthiness flags of the mode's dict values, in insertion order:
`(v != [] if isinstance(v, list) else True)` together with `if v` is just
"v is non-empty". -/
def fieldFilledFlags (mode : AgentBuilderMode) (c : Components) : List Bool :=
  match mode with
  | .BASIC => [c.role != "", c.task != "", !c.constraints.isEmpty]
  | .AI_ASSISTED =>
      [c.role != "", c.task != "", !c.constraints.isEmpty,
       c.context != "", !c.examples.isEmpty, c.output_format != ""]
  | .EXPERT =>
      [c.role != "", c.task != "", !c.constraints.isEmpty,
       c.context != "", !c.examples.isEmpty, c.output_format != "",
       c.reasoning_pattern != "", !c.success_criteria.isEmpty,
       !c.edge_cases.isEmpty, c.performance_requirements != "",
       !c.custom_instructions.isEmpty]

/-- The count `filled = sum(1 for v in self.components.values() if v and ...)`. -/
def filled_count (mode : AgentBuilderMode) (c : Components) : Nat :=
  (fieldFilledFlags mode c).count true

/-- The `ValidationResult` dataclass. -/
structure ValidationResult where
  is_valid : Bool
  clarity_score : ℚ
  completeness_score : ℚ
  issues : List String
  suggestions : List String
deriving DecidableEq

/-- The property `ValidationResult.overall_score`:
`(self.clarity_score / 10 * 0.5) + (self.completeness_score * 0.5)`. -/
def ValidationResult.overall_score (r : ValidationResult) : ℚ :=
  r.clarity_score / 10 * (1 / 2) + r.completeness_score * (1 / 2)

/-- The validator `AgentBuilder.validate_prompt`, lines 226-268.  The sequential
`append` / `min` updates of the Python body are written as one list
concatenation per check, in the source's order:
role check, task check, constraints check, completeness, expert-mode cap. -/
def validate_prompt (mode : AgentBuilderMode) (c : Components) : ValidationResult :=
  let roleIssues : List String :=
    if c.role = "" then ["Role is not defined"] else []
  let roleSuggestions : List String :=
    if c.role = "" then []
    else if c.role.length < 20 then
      ["Consider adding more detail to the role description"]
    else []
  let clarity0 : ℚ :=
    if c.role = "" then 3 else if c.role.length < 20 then 6 else 8
  let taskIssues : List String :=
    if c.task = "" then ["Task is not defined"] else []
  let taskSuggestions : List String :=
    if c.task = "" then []
    else if c.task.length < 30 then ["Task could be more specific"] else []
  let clarity1 : ℚ :=
    if c.task = "" then min clarity0 3
    else if c.task.length < 30 then min clarity0 7
    else clarity0
  let constraintSuggestions : List String :=
    if c.constraints.isEmpty then
      ["Consider adding constraints to guide behavior"]
    else []
  let completeness : ℚ := (filled_count mode c : ℚ) / (numComponents mode : ℚ)
  let expertSuggestions : List String :=
    if mode = .EXPERT ∧ completeness < 7 / 10 then
      ["Expert mode should utilize more advanced components"]
    else []
  let clarity2 : ℚ :=
    if mode = .EXPERT ∧ completeness < 7 / 10 then min clarity1 6 else clarity1
  { is_valid := (roleIssues ++ taskIssues).isEmpty
    clarity_score := clarity2
    completeness_score := completeness
    issues := roleIssues ++ taskIssues
    suggestions :=
      roleSuggestions ++ taskSuggestions ++ constraintSuggestions ++
        expertSuggestions }

/-- Performance metrics (`AgentBuilderMetrics` dataclass).  Timestamps are
rationals standing for the float seconds returned by `time.time()`. -/
structure AgentBuilderMetrics where
  mode : AgentBuilderMode
  start_time : ℚ
  end_time : Option ℚ
  components_filled : Nat
  total_components : Nat
  ai_suggestions_used : Nat
  ai_suggestions_offered : Nat
  validation_score : ℚ
  user_satisfaction : Option ℚ
deriving DecidableEq

/-- Truthiness of `if self.end_time:` in Python: `None` and `0.0` are falsy. -/
def floatTruthy : Option ℚ → Bool
  | none => false
  | some x => x != 0

/-- The property `AgentBuilderMetrics.time_to_create`; `now` is the value `time.time()`
would return at the moment of the call. -/
def time_to_create (m : AgentBuilderMetrics) (now : ℚ) : ℚ :=
  if floatTruthy m.end_time then m.end_time.getD 0 - m.start_time
  else now - m.start_time

/-- The per-mode base rates of `AgentBuilderMetrics.success_rate`. -/
def base_rates : AgentBuilderMode → ℚ
  | .BASIC => 85 / 100
  | .AI_ASSISTED => 92 / 100
  | .EXPERT => 98 / 100

/-- The property `AgentBuilderMetrics.success_rate`:
`base_rate * (components_filled / max(total_components, 1))`. -/
def success_rate (m : AgentBuilderMetrics) : ℚ :=
  base_rates m.mode *
    ((m.components_filled : ℚ) / ((max m.total_components 1 : ℕ) : ℚ))

/-- The last line of `AgentBuilder.build` (line 503):
`self.metrics.end_time = time.time()`.  It assigns unconditionally. -/
def finalize_build (m : AgentBuilderMetrics) (now : ℚ) : AgentBuilderMetrics :=
  { m with end_time := some now }

/-- The method view of validation: `validate_prompt` reads the component
store, never assigns to it, and before returning performs
`self.metrics.validation_score = result.overall_score` (line 270).
Result, post-state of the store and post-state of the metrics. -/
def validate_prompt_method (mode : AgentBuilderMode) (c : Components)
    (m : AgentBuilderMetrics) :
    ValidationResult × Components × AgentBuilderMetrics :=
  let result := validate_prompt mode c
  (result, c, { m with validation_score := result.overall_score })

/-! ## The renderer (`AgentBuilder.generate_prompt`)

`prompt_parts` is the list the Python code builds by successive `append`s;
each field contributes a contiguous segment, empty when the field is empty.
`"\n".join(prompt_parts)` is embedded as `joinParts`. -/

/-- The static `reasoning_instructions` lookup table (lines 537-543). -/
def reasoning_instructions (p : String) : Option String :=
  if p = "analytical" then
    some "Think through this step-by-step, showing your reasoning."
  else if p = "creative" then
    some "Explore multiple approaches before selecting the best one."
  else if p = "technical" then
    some "Break down the technical requirements systematically."
  else if p = "step-by-step" then
    some "Approach this methodically, one step at a time."
  else if p = "comparative" then
    some "Compare different options and explain your choice."
  else none

/-- Role segment: `"You are {role}."`. -/
def rolePart (c : Components) : List String :=
  if c.role != "" then ["You are " ++ c.role ++ "."] else []

/-- Context segment: `"\nContext: {context}"`. -/
def contextPart (c : Components) : List String :=
  if c.context != "" then ["\nContext: " ++ c.context] else []

/-- Task segment: `"\nYour task is to {task}."`. -/
def taskPart (c : Components) : List String :=
  if c.task != "" then ["\nYour task is to " ++ c.task ++ "."] else []

/-- Constraints segment: heading plus one bullet per item. -/
def constraintsPart (c : Components) : List String :=
  if c.constraints.isEmpty then []
  else "\nConstraints:" :: c.constraints.map (fun x => "- " ++ x)

/-- The enumerated example lines, `enumerate(..., 1)`. -/
def exampleLines : Nat → List (String × String) → List String
  | _, [] => []
  | i, (inp, out) :: rest =>
      ("\nExample " ++ toString i ++ ":") :: ("Input: " ++ inp) ::
        ("Output: " ++ out) :: exampleLines (i + 1) rest

/-- Examples segment: heading plus three lines per example pair. -/
def examplesPart (c : Components) : List String :=
  if c.examples.isEmpty then []
  else "\nExamples:" :: exampleLines 1 c.examples

/-- Reasoning-pattern segment: the canned sentence when the value is in the
table, the raw value verbatim otherwise. -/
def reasoningPart (c : Components) : List String :=
  if c.reasoning_pattern != "" then
    match reasoning_instructions c.reasoning_pattern with
    | some s => ["\n" ++ s]
    | none => ["\n" ++ c.reasoning_pattern]
  else []

/-- Output-format segment. -/
def outputFormatPart (c : Components) : List String :=
  if c.output_format != "" then
    ["\nOutput Format: " ++ c.output_format]
  else []

/-- Success-criteria segment. -/
def successCriteriaPart (c : Components) : List String :=
  if c.success_criteria.isEmpty then []
  else "\nSuccess Criteria:" :: c.success_criteria.map (fun x => "- " ++ x)

/-- Edge-cases segment. -/
def edgeCasesPart (c : Components) : List String :=
  if c.edge_cases.isEmpty then []
  else "\nConsider these edge cases:" :: c.edge_cases.map (fun x => "- " ++ x)

/-- Performance-requirements segment. -/
def performancePart (c : Components) : List String :=
  if c.performance_requirements != "" then
    ["\nPerformance Requirements: " ++ c.performance_requirements]
  else []

/-- Custom-instructions segment. -/
def customInstructionsPart (c : Components) : List String :=
  if c.custom_instructions.isEmpty then []
  else "\nAdditional Instructions:" ::
    c.custom_instructions.map (fun x => "- " ++ x)

/-- The eleven per-field segments, in the fixed emission order of
`generate_prompt`. -/
def segments (c : Components) : List (List String) :=
  [rolePart c, contextPart c, taskPart c, constraintsPart c, examplesPart c,
   reasoningPart c, outputFormatPart c, successCriteriaPart c,
   edgeCasesPart c, performancePart c, customInstructionsPart c]

/-- The `prompt_parts` list of `generate_prompt`. -/
def prompt_parts (c : Components) : List String :=
  (segments c).flatten

/-- Python's `"\n".join`. -/
def joinParts : List String → String
  | [] => ""
  | [a] => a
  | a :: rest => a ++ "\n" ++ joinParts rest

/-- The renderer `AgentBuilder.generate_prompt`: `"\n".join(prompt_parts)`. -/
def generate_prompt (c : Components) : String :=
  joinParts (prompt_parts c)

/-! ## Field access for the monotonicity claim -/

/-- A Python value living in the components dict. -/
inductive PyValue
  | pynone
  | text (s : String)
  | strList (l : List String)
  | pairList (l : List (String × String))
deriving DecidableEq

/-- The eleven field names of the Full tier. -/
inductive Field
  | role
  | task
  | constraints
  | context
  | examples
  | output_format
  | reasoning_pattern
  | success_criteria
  | edge_cases
  | performance_requirements
  | custom_instructions
deriving DecidableEq, Fintype

/-- Reading one field of the store. -/
def getF (c : Components) : Field → PyValue
  | .role => .text c.role
  | .task => .text c.task
  | .constraints => .strList c.constraints
  | .context => .text c.context
  | .examples => .pairList c.examples
  | .output_format => .text c.output_format
  | .reasoning_pattern => .text c.reasoning_pattern
  | .success_criteria => .strList c.success_criteria
  | .edge_cases => .strList c.edge_cases
  | .performance_requirements => .text c.performance_requirements
  | .custom_instructions => .strList c.custom_instructions

/-- Python falsiness of a field value. -/
def PyValue.isEmptyVal : PyValue → Bool
  | .pynone => true
  | .text s => s == ""
  | .strList l => l.isEmpty
  | .pairList l => l.isEmpty

/-- Store `c₂` is `c₁` with exactly one previously empty field set to a non-empty
value and every other field untouched. -/
def ExtendsByOne (c₁ c₂ : Components) : Prop :=
  ∃ f : Field, (getF c₁ f).isEmptyVal = true ∧ (getF c₂ f).isEmptyVal = false ∧
    ∀ g : Field, g ≠ f → getF c₁ g = getF c₂ g

/-! ## The raw dict model of the store

The source keeps the components in a plain Python `dict` and writes fields
by subscript assignment (`self.components[field] = value`, as its own tests
do).  Assignment to a `dict` updates an existing key in place and silently
inserts an unknown key at the end of the iteration order. -/

/-- Python dict subscript assignment on an association list in iteration
order. -/
def dict_set (d : List (String × PyValue)) (k : String) (v : PyValue) :
    List (String × PyValue) :=
  match d with
  | [] => [(k, v)]
  | (k', v') :: rest =>
      if k' = k then (k, v) :: rest else (k', v') :: dict_set rest k v

/-- The keys of the dict, in iteration order. -/
def dict_keys (d : List (String × PyValue)) : List String :=
  d.map Prod.fst

/-- The dict built by `AgentBuilder._initialize_components`: the per-mode initial dict. -/
def initial_components (mode : AgentBuilderMode) : List (String × PyValue) :=
  match mode with
  | .BASIC =>
      [("role", .pynone), ("task", .pynone), ("constraints", .strList [])]
  | .AI_ASSISTED =>
      [("role", .pynone), ("task", .pynone), ("constraints", .strList []),
       ("context", .pynone), ("examples", .strList []),
       ("output_format", .pynone)]
  | .EXPERT =>
      [("role", .pynone), ("task", .pynone), ("constraints", .strList []),
       ("context", .pynone), ("examples", .strList []),
       ("output_format", .pynone), ("reasoning_pattern", .pynone),
       ("success_criteria", .strList []), ("edge_cases", .strList []),
       ("performance_requirements", .pynone),
       ("custom_instructions", .strList [])]

/-! ## Concrete instances used by counterexamples and witnesses -/

/-- A Minimal-tier store: the worked scenario of the specification
(25-char role, 40-char task, one constraint). -/
def minimalStore : Components :=
  { emptyComponents with
      role := "a senior Python developer"
      task := "review code for bugs and security issues"
      constraints := ["Be constructive"] }

/-- A Full-tier store with only role (29 chars) and task (54 chars) set. -/
def fullRoleTaskStore : Components :=
  { emptyComponents with
      role := "a seasoned software architect"
      task := "design the architecture for a large distributed system" }

/-- A store whose reasoning pattern is the enumerated value "analytical". -/
def analyticalStore : Components :=
  { emptyComponents with reasoning_pattern := "analytical" }

/-- A store whose reasoning pattern is outside the fixed enumeration. -/
def improviseStore : Components :=
  { emptyComponents with reasoning_pattern := "improvise wildly" }

/-- A store holding only a role, and the same store after also setting the
task: the concrete one-field extension exercised by the monotonicity
witness. -/
def roleOnlyStore : Components :=
  { emptyComponents with role := "a senior Python developer" }

/-- The extension of `roleOnlyStore` by a non-empty task. -/
def roleTaskStore : Components :=
  { roleOnlyStore with task := "review code for bugs and security issues" }

/-- A fresh metrics record as `AgentBuilder.__init__` creates it for the
BASIC mode (start time normalised to 0). -/
def freshMetrics : AgentBuilderMetrics :=
  { mode := .BASIC
    start_time := 0
    end_time := none
    components_filled := 0
    total_components := 3
    ai_suggestions_used := 0
    ai_suggestions_offered := 0
    validation_score := 0
    user_satisfaction := none }

/-- An EXPERT metrics record with zero total components and one filled
component. -/
def zeroTotalMetrics : AgentBuilderMetrics :=
  { freshMetrics with
      mode := .EXPERT
      total_components := 0
      components_filled := 1 }

/-! ## Theorems -/

/-- C1: the validator's clarity score is the role-based start value
(8.0 for a role of length at least 20, 6.0 for a shorter non-empty role,
3.0 for an empty role), lowered via `min` to 3.0 when the task is empty or
to 7.0 when the task is shorter than 30 characters, and additionally
lowered via `min` to 6.0 when the tier is Full (EXPERT) and the
completeness ratio is below 0.7; the caps only ever lower the score, so the
final clarity never exceeds the role-based start value. -/
theorem clarity_score_staged_caps (mode : AgentBuilderMode) (c : Components) :
    ((validate_prompt mode c).clarity_score =
      (let roleClarity : ℚ :=
        if c.role = "" then 3 else if c.role.length < 20 then 6 else 8
       let taskClarity : ℚ :=
        if c.task = "" then min roleClarity 3
        else if c.task.length < 30 then min roleClarity 7
        else roleClarity
       if mode = .EXPERT ∧
           (validate_prompt mode c).completeness_score < 7 / 10 then
         min taskClarity 6
       else taskClarity)) ∧
    (validate_prompt mode c).clarity_score ≤
      (if c.role = "" then (3 : ℚ) else if c.role.length < 20 then 6 else 8) := by
  constructor
  · rfl
  · show (validate_prompt mode c).clarity_score ≤ _
    simp only [validate_prompt]
    split_ifs <;>
      first
        | exact le_refl _
        | exact min_le_left _ _
        | exact (min_le_left _ _).trans (min_le_left _ _)

/-- C5: for every store of every tier, `is_valid` is true iff the issue
list is empty, which holds exactly when role and task are both non-empty;
suggestions never enter the computation of validity.  A store with empty
role and empty task yields `is_valid = false` and clarity 3.0 regardless of
tier and of all other fields. -/
theorem is_valid_iff_role_task (mode : AgentBuilderMode) (c : Components) :
    ((validate_prompt mode c).is_valid = true ↔
      (validate_prompt mode c).issues = []) ∧
    ((validate_prompt mode c).issues = [] ↔ (c.role ≠ "" ∧ c.task ≠ "")) ∧
    (c.role = "" ∧ c.task = "" →
      (validate_prompt mode c).is_valid = false ∧
        (validate_prompt mode c).clarity_score = 3) := by
  refine ⟨?_, ?_, ?_⟩
  · simp [validate_prompt]
  · simp only [validate_prompt]
    by_cases hr : c.role = "" <;> by_cases ht : c.task = "" <;>
      simp [hr, ht]
  · rintro ⟨hr, ht⟩
    constructor
    · simp [validate_prompt, hr, ht]
    · simp only [validate_prompt, hr, ht]
      split_ifs <;> norm_num

/-- Witness for C5 at the all-empty EXPERT store. -/
theorem is_valid_iff_role_task_witness :
    (validate_prompt .EXPERT emptyComponents).is_valid = false ∧
      (validate_prompt .EXPERT emptyComponents).clarity_score = 3 :=
  (is_valid_iff_role_task .EXPERT emptyComponents).2.2 ⟨rfl, rfl⟩

/-- C9 counterexample: the claim that validation mutates no field of the
Metrics record is false.  Line 270 of the source executes
`self.metrics.validation_score = result.overall_score`, so validating the
worked Minimal store against a fresh metrics record (validation_score 0)
changes the metrics: the score becomes 9/10. -/
theorem validate_mutates_metrics :
    (validate_prompt_method .BASIC minimalStore freshMetrics).2.2 ≠
      freshMetrics := by
  have hclar : (validate_prompt .BASIC minimalStore).clarity_score = 8 := by
    decide
  have hfc : filled_count .BASIC minimalStore = 3 := by decide
  have hcomp : (validate_prompt .BASIC minimalStore).completeness_score = 1 := by
    show (filled_count .BASIC minimalStore : ℚ) / (numComponents .BASIC : ℚ) = 1
    rw [hfc]
    norm_num [numComponents]
  have hover : (validate_prompt .BASIC minimalStore).overall_score = 9 / 10 := by
    rw [ValidationResult.overall_score, hclar, hcomp]
    norm_num
  intro h
  have h2 := congrArg AgentBuilderMetrics.validation_score h
  rw [show (validate_prompt_method .BASIC minimalStore freshMetrics).2.2.validation_score =
        (validate_prompt .BASIC minimalStore).overall_score from rfl,
      hover] at h2
  norm_num [freshMetrics] at h2

/-- C9 amended: validation is a pure function of the current store
contents — the Component Store is left unchanged, and validating the same
store twice yields identical results — but it does write the overall score
into `metrics.validation_score` (the only metrics field it touches); that
write is idempotent, so a second validation leaves the metrics fixed. -/
theorem validate_method_frame (mode : AgentBuilderMode) (c : Components)
    (m : AgentBuilderMetrics) :
    (validate_prompt_method mode c m).2.1 = c ∧
    (validate_prompt_method mode c m).2.2 =
      { m with validation_score := (validate_prompt mode c).overall_score } ∧
    (validate_prompt_method mode c (validate_prompt_method mode c m).2.2).1 =
      (validate_prompt_method mode c m).1 ∧
    (validate_prompt_method mode c (validate_prompt_method mode c m).2.2).2.2 =
      (validate_prompt_method mode c m).2.2 :=
  ⟨rfl, rfl, rfl, rfl⟩

/-- C4 counterexample: finalisation is not idempotent.  The end of `build`
assigns `self.metrics.end_time = time.time()` unconditionally, so a second
finalisation at a later time advances the end time: after finalising at
times 5 and then 9, `time_to_create` observed at time 12 is 9, not the 5
observed after the first finalisation. -/
theorem double_finalize_advances_end_time :
    time_to_create (finalize_build (finalize_build freshMetrics 5) 9) 12 ≠
      time_to_create (finalize_build freshMetrics 5) 12 := by
  norm_num [time_to_create, finalize_build, floatTruthy, freshMetrics]

/-- C4 amended: each finalisation overwrites the end timestamp with the
current time, so after a second finalisation at (non-zero) time t₂ the
observed `time_to_create` is t₂ minus the start time — the value set by the
first finalisation is lost rather than preserved. -/
theorem finalize_build_overwrites (m : AgentBuilderMetrics) (t₁ t₂ now : ℚ)
    (h : t₂ ≠ 0) :
    time_to_create (finalize_build (finalize_build m t₁) t₂) now =
      t₂ - m.start_time := by
  simp [time_to_create, finalize_build, floatTruthy, h]

/-- Witness for C4's amended theorem at concrete times 5, 9, 12. -/
theorem finalize_build_overwrites_witness :
    (9 : ℚ) ≠ 0 ∧
      time_to_create (finalize_build (finalize_build freshMetrics 5) 9) 12 =
        9 - freshMetrics.start_time :=
  ⟨by simp, finalize_build_overwrites freshMetrics 5 9 12 (by simp)⟩

/-- C10 counterexample: with total_components = 0 and components_filled = 1
the filled count exceeds the total, yet the returned rate equals the EXPERT
base rate (0.98) instead of exceeding it — the claim's "filled exceeds
total implies rate exceeds base rate" fails at this input. -/
theorem success_rate_at_zero_total_not_above_base :
    zeroTotalMetrics.components_filled > zeroTotalMetrics.total_components ∧
    success_rate zeroTotalMetrics = base_rates zeroTotalMetrics.mode ∧
    ¬ success_rate zeroTotalMetrics > base_rates zeroTotalMetrics.mode := by
  have h : success_rate zeroTotalMetrics = base_rates zeroTotalMetrics.mode := by
    norm_num [success_rate, zeroTotalMetrics, freshMetrics, base_rates]
  exact ⟨by decide, h, by rw [h]; exact lt_irrefl _⟩

/-- C10 amended: the denominator of `success_rate` is max(total, 1), so the
computation is total: with total_components = 0 it returns the base rate
times the raw filled count.  The result is not clamped: whenever the filled
count exceeds max(total, 1) the rate strictly exceeds the mode's base rate,
and it can exceed 1.0 (EXPERT mode, 2 filled of 1 total). -/
theorem success_rate_total_and_unclamped (m : AgentBuilderMetrics) :
    (m.total_components = 0 →
      success_rate m = base_rates m.mode * m.components_filled) ∧
    (max m.total_components 1 < m.components_filled →
      base_rates m.mode < success_rate m) ∧
    1 < success_rate
      { m with mode := .EXPERT, total_components := 1, components_filled := 2 } := by
  refine ⟨?_, ?_, ?_⟩
  · intro h
    rw [success_rate, h]
    norm_num
  · intro h
    have hb : 0 < base_rates m.mode := by
      cases hm : m.mode <;> norm_num [base_rates, hm]
    have hdn : 0 < max m.total_components 1 :=
      Nat.lt_of_lt_of_le Nat.zero_lt_one (Nat.le_max_right _ _)
    have hd : (0 : ℚ) < ((max m.total_components 1 : ℕ) : ℚ) := by
      exact_mod_cast hdn
    have hx : (1 : ℚ) <
        (m.components_filled : ℚ) / ((max m.total_components 1 : ℕ) : ℚ) := by
      rw [one_lt_div hd]
      exact_mod_cast h
    have hmul := mul_lt_mul_of_pos_left hx hb
    rw [mul_one] at hmul
    rw [success_rate]
    exact hmul
  · norm_num [success_rate, base_rates]

/-- Witness for C10's amended theorem at the zero-total metrics record. -/
theorem success_rate_total_and_unclamped_witness :
    zeroTotalMetrics.total_components = 0 ∧
      success_rate zeroTotalMetrics =
        base_rates zeroTotalMetrics.mode * zeroTotalMetrics.components_filled :=
  ⟨rfl, (success_rate_total_and_unclamped zeroTotalMetrics).1 rfl⟩

/-- Dict assignment on a key absent from the dict appends the new binding:
it never fails. -/
theorem dict_set_of_not_mem (d : List (String × PyValue)) (k : String)
    (v : PyValue) (h : k ∉ dict_keys d) : dict_set d k v = d ++ [(k, v)] := by
  induction d with
  | nil => rfl
  | cons a rest ih =>
    obtain ⟨k', v'⟩ := a
    simp only [dict_keys, List.map_cons, List.mem_cons] at h
    push_neg at h
    have h2 : k ∉ dict_keys rest := by
      simpa [dict_keys] using h.2
    have h1 : ¬ k' = k := fun he => h.1 he.symm
    simp [dict_set, h1, ih h2]

/-- C3 counterexample: the component store is a plain Python dict written
by subscript assignment (as the repository's own tests do); assigning to
the unknown field name "bogus" on a BASIC-tier store does not fail — no
`UnknownFieldError` exists anywhere in the source — it silently inserts the
new key at the end of the dict. -/
theorem set_unknown_field_silently_accepted :
    dict_set (initial_components .BASIC) "bogus" (.text "x") =
      [("role", .pynone), ("task", .pynone), ("constraints", .strList []),
       ("bogus", .text "x")] ∧
    "bogus" ∉ dict_keys (initial_components .BASIC) ∧
    "bogus" ∈ dict_keys (dict_set (initial_components .BASIC) "bogus" (.text "x")) := by
  refine ⟨by decide, by decide, by decide⟩

/-- C3 amended: setting a field whose name is not in the active tier's
schema does not raise any error: for every tier and every unknown field
name, dict assignment silently accepts the write and appends the new key
after the tier's own fields. -/
theorem set_unknown_field_appends (mode : AgentBuilderMode) (k : String)
    (v : PyValue) (h : k ∉ dict_keys (initial_components mode)) :
    dict_set (initial_components mode) k v =
      initial_components mode ++ [(k, v)] :=
  dict_set_of_not_mem _ k v h

/-- Witness for C3's amended theorem: the unknown name "bogus" on the
BASIC tier. -/
theorem set_unknown_field_appends_witness :
    "bogus" ∉ dict_keys (initial_components .BASIC) ∧
      dict_set (initial_components .BASIC) "bogus" (.text "x") =
        initial_components .BASIC ++ [("bogus", .text "x")] :=
  ⟨by decide, set_unknown_field_appends .BASIC "bogus" (.text "x") (by decide)⟩

/-- Full profile of validation on an EXPERT store in which only role and
task are non-empty: completeness 2/11, clarity 6.0, valid, and the
suggestion list always ends with the empty-constraints suggestion and the
Expert-mode suggestion (preceded by the length-based role/task
suggestions when those fire). -/
theorem expert_role_task_only_profile (c : Components)
    (hr : c.role ≠ "") (ht : c.task ≠ "")
    (hcon : c.constraints = []) (hctx : c.context = "") (hex : c.examples = [])
    (hof : c.output_format = "") (hrp : c.reasoning_pattern = "")
    (hsc : c.success_criteria = []) (hec : c.edge_cases = [])
    (hpr : c.performance_requirements = "") (hci : c.custom_instructions = []) :
    validate_prompt .EXPERT c =
      { is_valid := true
        clarity_score := 6
        completeness_score := 2 / 11
        issues := []
        suggestions :=
          (if c.role.length < 20 then
            ["Consider adding more detail to the role description"]
          else []) ++
          (if c.task.length < 30 then ["Task could be more specific"]
          else []) ++
          ["Consider adding constraints to guide behavior"] ++
          ["Expert mode should utilize more advanced components"] } := by
  have hb1 : (c.role != "") = true := by simp [hr]
  have hb2 : (c.task != "") = true := by simp [ht]
  have hfc : filled_count .EXPERT c = 2 := by
    simp [filled_count, fieldFilledFlags, hb1, hb2, hcon, hctx, hex, hof,
      hrp, hsc, hec, hpr, hci]
  by_cases h20 : c.role.length < 20 <;> by_cases h30 : c.task.length < 30 <;>
    · norm_num [validate_prompt, hr, ht, hcon, hfc, numComponents, h20, h30]

/-- C2 counterexample: a Full-tier store with only role (29 chars) and
task (54 chars) set yields completeness 2/11, clarity 6.0 and
is_valid = true as the claim states, but the suggestion list has two
entries (the empty-constraints suggestion and the Expert-mode
low-completeness suggestion), not exactly one. -/
theorem full_tier_one_suggestion_counterexample :
    (validate_prompt .EXPERT fullRoleTaskStore).completeness_score = 2 / 11 ∧
    (validate_prompt .EXPERT fullRoleTaskStore).clarity_score = 6 ∧
    (validate_prompt .EXPERT fullRoleTaskStore).is_valid = true ∧
    (validate_prompt .EXPERT fullRoleTaskStore).suggestions.length = 2 ∧
    (validate_prompt .EXPERT fullRoleTaskStore).suggestions.length ≠ 1 := by
  have h := expert_role_task_only_profile fullRoleTaskStore
    (by decide) (by decide) rfl rfl rfl rfl rfl rfl rfl rfl rfl
  rw [h]
  exact ⟨rfl, rfl, rfl, by decide, by decide⟩

/-- C2 amended: for a Full-tier store in which only role and task are
non-empty, validation returns completeness 2/11, clarity 6.0 and
is_valid = true, and the suggestion list contains both the
empty-constraints suggestion and the Expert-mode low-completeness
suggestion — hence at least two suggestions, not exactly one. -/
theorem full_tier_role_task_only (c : Components)
    (hr : c.role ≠ "") (ht : c.task ≠ "")
    (hcon : c.constraints = []) (hctx : c.context = "") (hex : c.examples = [])
    (hof : c.output_format = "") (hrp : c.reasoning_pattern = "")
    (hsc : c.success_criteria = []) (hec : c.edge_cases = [])
    (hpr : c.performance_requirements = "") (hci : c.custom_instructions = []) :
    (validate_prompt .EXPERT c).completeness_score = 2 / 11 ∧
    (validate_prompt .EXPERT c).clarity_score = 6 ∧
    (validate_prompt .EXPERT c).is_valid = true ∧
    "Consider adding constraints to guide behavior" ∈
      (validate_prompt .EXPERT c).suggestions ∧
    "Expert mode should utilize more advanced components" ∈
      (validate_prompt .EXPERT c).suggestions ∧
    2 ≤ (validate_prompt .EXPERT c).suggestions.length := by
  have h := expert_role_task_only_profile c hr ht hcon hctx hex hof hrp hsc
    hec hpr hci
  rw [h]
  refine ⟨rfl, rfl, rfl, by simp, by simp, ?_⟩
  split_ifs <;> simp

/-- Witness for C2's amended theorem at the concrete two-field store. -/
theorem full_tier_role_task_only_witness :
    fullRoleTaskStore.role ≠ "" ∧
      2 ≤ (validate_prompt .EXPERT fullRoleTaskStore).suggestions.length :=
  ⟨by decide,
   (full_tier_role_task_only fullRoleTaskStore (by decide) (by decide)
      rfl rfl rfl rfl rfl rfl rfl rfl rfl).2.2.2.2.2⟩

/-- C7: the worked Minimal-tier scenario: completeness 1.0, clarity 8.0,
valid, and the rendered text consists of the role line, the task line and
a Constraints heading followed by the single bullet, exactly as claimed
(the full parts list and the full rendered string are computed). -/
theorem minimal_scenario_profile :
    (validate_prompt .BASIC minimalStore).completeness_score = 1 ∧
    (validate_prompt .BASIC minimalStore).clarity_score = 8 ∧
    (validate_prompt .BASIC minimalStore).is_valid = true ∧
    prompt_parts minimalStore =
      ["You are a senior Python developer.",
       "\nYour task is to review code for bugs and security issues.",
       "\nConstraints:", "- Be constructive"] ∧
    generate_prompt minimalStore =
      "You are a senior Python developer.\n\nYour task is to review code for bugs and security issues.\n\nConstraints:\n- Be constructive" := by
  refine ⟨?_, by decide, by decide, by decide, by decide⟩
  show (filled_count .BASIC minimalStore : ℚ) / (numComponents .BASIC : ℚ) = 1
  rw [show filled_count .BASIC minimalStore = 3 from by decide]
  norm_num [numComponents]

/-- Any member of the reasoning segment is a member of the full parts
list. -/
theorem mem_prompt_parts_of_mem_reasoningPart (c : Components) (x : String)
    (hx : x ∈ reasoningPart c) : x ∈ prompt_parts c := by
  have hseg : reasoningPart c ∈ segments c := by simp [segments]
  exact List.mem_flatten.mpr ⟨reasoningPart c, hseg, hx⟩

/-- C6: when the reasoning_pattern field is non-empty the renderer emits
one instruction sentence: the canned sentence from the static lookup table
when the value is one of the five enumerated patterns (in particular
"analytical" gives "Think through this step-by-step, showing your
reasoning."), and the raw value verbatim for any value outside the
enumeration. -/
theorem reasoning_pattern_rendering (c : Components) :
    (∀ p : String, (reasoning_instructions p).isSome = true ↔
        p ∈ ["analytical", "creative", "technical", "step-by-step",
             "comparative"]) ∧
    (c.reasoning_pattern = "analytical" →
      reasoningPart c =
        ["\nThink through this step-by-step, showing your reasoning."] ∧
      "\nThink through this step-by-step, showing your reasoning." ∈
        prompt_parts c) ∧
    (∀ t : String, reasoning_instructions c.reasoning_pattern = some t →
      reasoningPart c = ["\n" ++ t] ∧ ("\n" ++ t) ∈ prompt_parts c) ∧
    (c.reasoning_pattern ≠ "" →
      reasoning_instructions c.reasoning_pattern = none →
      reasoningPart c = ["\n" ++ c.reasoning_pattern] ∧
        ("\n" ++ c.reasoning_pattern) ∈ prompt_parts c) := by
  refine ⟨?_, ?_, ?_, ?_⟩
  · intro p
    rw [reasoning_instructions]
    split_ifs with h1 h2 h3 h4 h5 <;> simp_all
  · intro h
    have h1 : reasoningPart c =
        ["\nThink through this step-by-step, showing your reasoning."] := by
      simp only [reasoningPart, h]
      decide
    exact ⟨h1, mem_prompt_parts_of_mem_reasoningPart c _ (by rw [h1]; simp)⟩
  · intro t ht
    have hne : c.reasoning_pattern ≠ "" := by
      intro he
      rw [he] at ht
      simp [reasoning_instructions] at ht
    have h1 : reasoningPart c = ["\n" ++ t] := by
      simp [reasoningPart, hne, ht]
    exact ⟨h1, mem_prompt_parts_of_mem_reasoningPart c _ (by rw [h1]; simp)⟩
  · intro hne hnone
    have h1 : reasoningPart c = ["\n" ++ c.reasoning_pattern] := by
      simp [reasoningPart, hne, hnone]
    exact ⟨h1, mem_prompt_parts_of_mem_reasoningPart c _ (by rw [h1]; simp)⟩

/-- Witness for C6 at the "analytical" store and at the unrecognized
value "improvise wildly" (rendered verbatim). -/
theorem reasoning_pattern_rendering_witness :
    reasoningPart analyticalStore =
      ["\nThink through this step-by-step, showing your reasoning."] ∧
    reasoningPart improviseStore = ["\nimprovise wildly"] :=
  ⟨((reasoning_pattern_rendering analyticalStore).2.1 rfl).1,
   ((reasoning_pattern_rendering improviseStore).2.2.2 (by decide)
      (by decide)).1⟩

/-- Pointwise sublists flatten to a sublist. -/
theorem flatten_sublist_of_forall₂ {l1 l2 : List (List String)}
    (h : List.Forall₂ List.Sublist l1 l2) : l1.flatten.Sublist l2.flatten := by
  induction h with
  | nil => simp
  | cons hab _ ih => exact hab.append ih

/-- Every member of a parts list is an infix of the joined text. -/
theorem joinParts_infix_of_mem (L : List String) (p : String) (hp : p ∈ L) :
    ∃ pre suf : String, joinParts L = pre ++ p ++ suf := by
  induction L with
  | nil => cases hp
  | cons a rest ih =>
    cases rest with
    | nil =>
      have hpa : p = a := by simpa using hp
      subst hpa
      exact ⟨"", "", by
        simp [joinParts, String.empty_append, String.append_empty]⟩
    | cons b rest2 =>
      rcases List.mem_cons.mp hp with hpa | hmem
      · subst hpa
        refine ⟨"", "\n" ++ joinParts (b :: rest2), ?_⟩
        simp [joinParts, String.empty_append, String.append_assoc]
      · obtain ⟨pre, suf, hps⟩ := ih hmem
        refine ⟨a ++ "\n" ++ pre, suf, ?_⟩
        simp [joinParts, hps, String.append_assoc]

/-- If each field of `c₁` either agrees with `c₂` or is empty, every
per-field segment of `c₁` is a sublist of the corresponding segment of
`c₂`. -/
theorem segments_pointwise_sublist (c₁ c₂ : Components)
    (h : ∀ f : Field, getF c₁ f = getF c₂ f ∨ (getF c₁ f).isEmptyVal = true) :
    List.Forall₂ List.Sublist (segments c₁) (segments c₂) := by
  have step : ∀ a b : List String, (a = b ∨ a = []) → a.Sublist b := by
    rintro a b (rfl | rfl)
    · exact List.Sublist.refl _
    · exact List.nil_sublist _
  have hrole : rolePart c₁ = rolePart c₂ ∨ rolePart c₁ = [] := by
    rcases h .role with heq | hemp
    · left
      have he : c₁.role = c₂.role := by simpa [getF] using heq
      simp [rolePart, he]
    · right
      have he : c₁.role = "" := by simpa [getF, PyValue.isEmptyVal] using hemp
      simp [rolePart, he]
  have hcontext : contextPart c₁ = contextPart c₂ ∨ contextPart c₁ = [] := by
    rcases h .context with heq | hemp
    · left
      have he : c₁.context = c₂.context := by simpa [getF] using heq
      simp [contextPart, he]
    · right
      have he : c₁.context = "" := by
        simpa [getF, PyValue.isEmptyVal] using hemp
      simp [contextPart, he]
  have htask : taskPart c₁ = taskPart c₂ ∨ taskPart c₁ = [] := by
    rcases h .task with heq | hemp
    · left
      have he : c₁.task = c₂.task := by simpa [getF] using heq
      simp [taskPart, he]
    · right
      have he : c₁.task = "" := by simpa [getF, PyValue.isEmptyVal] using hemp
      simp [taskPart, he]
  have hconstraints :
      constraintsPart c₁ = constraintsPart c₂ ∨ constraintsPart c₁ = [] := by
    rcases h .constraints with heq | hemp
    · left
      have he : c₁.constraints = c₂.constraints := by simpa [getF] using heq
      simp [constraintsPart, he]
    · right
      have he : c₁.constraints = [] := by
        simpa [getF, PyValue.isEmptyVal] using hemp
      simp [constraintsPart, he]
  have hexamples :
      examplesPart c₁ = examplesPart c₂ ∨ examplesPart c₁ = [] := by
    rcases h .examples with heq | hemp
    · left
      have he : c₁.examples = c₂.examples := by simpa [getF] using heq
      simp [examplesPart, he]
    · right
      have he : c₁.examples = [] := by
        simpa [getF, PyValue.isEmptyVal] using hemp
      simp [examplesPart, he]
  have hreasoning :
      reasoningPart c₁ = reasoningPart c₂ ∨ reasoningPart c₁ = [] := by
    rcases h .reasoning_pattern with heq | hemp
    · left
      have he : c₁.reasoning_pattern = c₂.reasoning_pattern := by
        simpa [getF] using heq
      simp [reasoningPart, he]
    · right
      have he : c₁.reasoning_pattern = "" := by
        simpa [getF, PyValue.isEmptyVal] using hemp
      simp [reasoningPart, he]
  have houtput :
      outputFormatPart c₁ = outputFormatPart c₂ ∨ outputFormatPart c₁ = [] := by
    rcases h .output_format with heq | hemp
    · left
      have he : c₁.output_format = c₂.output_format := by simpa [getF] using heq
      simp [outputFormatPart, he]
    · right
      have he : c₁.output_format = "" := by
        simpa [getF, PyValue.isEmptyVal] using hemp
      simp [outputFormatPart, he]
  have hsuccess :
      successCriteriaPart c₁ = successCriteriaPart c₂ ∨
        successCriteriaPart c₁ = [] := by
    rcases h .success_criteria with heq | hemp
    · left
      have he : c₁.success_criteria = c₂.success_criteria := by
        simpa [getF] using heq
      simp [successCriteriaPart, he]
    · right
      have he : c₁.success_criteria = [] := by
        simpa [getF, PyValue.isEmptyVal] using hemp
      simp [successCriteriaPart, he]
  have hedge : edgeCasesPart c₁ = edgeCasesPart c₂ ∨ edgeCasesPart c₁ = [] := by
    rcases h .edge_cases with heq | hemp
    · left
      have he : c₁.edge_cases = c₂.edge_cases := by simpa [getF] using heq
      simp [edgeCasesPart, he]
    · right
      have he : c₁.edge_cases = [] := by
        simpa [getF, PyValue.isEmptyVal] using hemp
      simp [edgeCasesPart, he]
  have hperf :
      performancePart c₁ = performancePart c₂ ∨ performancePart c₁ = [] := by
    rcases h .performance_requirements with heq | hemp
    · left
      have he : c₁.performance_requirements = c₂.performance_requirements := by
        simpa [getF] using heq
      simp [performancePart, he]
    · right
      have he : c₁.performance_requirements = "" := by
        simpa [getF, PyValue.isEmptyVal] using hemp
      simp [performancePart, he]
  have hcustom :
      customInstructionsPart c₁ = customInstructionsPart c₂ ∨
        customInstructionsPart c₁ = [] := by
    rcases h .custom_instructions with heq | hemp
    · left
      have he : c₁.custom_instructions = c₂.custom_instructions := by
        simpa [getF] using heq
      simp [customInstructionsPart, he]
    · right
      have he : c₁.custom_instructions = [] := by
        simpa [getF, PyValue.isEmptyVal] using hemp
      simp [customInstructionsPart, he]
  simp only [segments]
  exact .cons (step _ _ hrole) (.cons (step _ _ hcontext)
    (.cons (step _ _ htask) (.cons (step _ _ hconstraints)
    (.cons (step _ _ hexamples) (.cons (step _ _ hreasoning)
    (.cons (step _ _ houtput) (.cons (step _ _ hsuccess)
    (.cons (step _ _ hedge) (.cons (step _ _ hperf)
    (.cons (step _ _ hcustom) .nil))))))))))

/-- C8: rendering is monotonic in information.  Setting one previously
empty field to any non-empty value leaves the parts rendered for all other
fields in place and unchanged: the original parts list is a sublist of the
new one, and every original part (hence every line the original rendering
produced) still occurs verbatim inside the new rendered text. -/
theorem render_monotone_extendsByOne (c₁ c₂ : Components)
    (h : ExtendsByOne c₁ c₂) :
    (prompt_parts c₁).Sublist (prompt_parts c₂) ∧
      ∀ p ∈ prompt_parts c₁,
        ∃ pre suf : String, generate_prompt c₂ = pre ++ p ++ suf := by
  obtain ⟨f, hemp, _, hother⟩ := h
  have hsub : (prompt_parts c₁).Sublist (prompt_parts c₂) := by
    apply flatten_sublist_of_forall₂
    apply segments_pointwise_sublist
    intro g
    by_cases hg : g = f
    · subst hg
      right
      exact hemp
    · left
      exact hother g hg
  refine ⟨hsub, fun p hp => ?_⟩
  exact joinParts_infix_of_mem _ p (hsub.mem hp)

/-- Witness for C8: extending a role-only store by a non-empty task. -/
theorem render_monotone_extendsByOne_witness :
    ExtendsByOne roleOnlyStore roleTaskStore ∧
      (prompt_parts roleOnlyStore).Sublist (prompt_parts roleTaskStore) := by
  have h : ExtendsByOne roleOnlyStore roleTaskStore :=
    ⟨Field.task, by decide, by decide, by decide⟩
  exact ⟨h, (render_monotone_extendsByOne roleOnlyStore roleTaskStore h).1⟩

end AgentBuilderSpec
